import Mathlib

/-!
Verification of the SLO / security deployment gate of the
`sre-cicd-pipeline` repository.

The Python scripts are shallowly embedded: float metric values are
modelled as exact rationals (`Rat`), process side effects (prints,
sleeps, metric sampling, HTTP calls) as an explicit `Effect` trace
returned by each embedded run, and the random metric values drawn by
`random.uniform` as explicit inputs of the run (explicit state passing
of the randomness).
-/

namespace SreCicd

/-- One observable side effect of a script run: a printed text line, a
printed line carrying a numeric value, a sleep, one draw of the current
metrics (the sampler of the spec), or an HTTP request. -/
inductive Effect
  | print (line : String)
  | printNum (label : String) (value : Rat)
  | sleep (seconds : Rat)
  | sampleMetrics
  | httpGet (url : String)
  deriving DecidableEq, Repr

/-- One evaluation window's measurements (spec §3 `MetricSample`);
in `scripts/slo-check.py` these are `current_availability` and
`current_latency`. -/
structure MetricSample where
  availabilityPercent : Rat
  latencyMillis : Rat
  deriving DecidableEq, Repr

/-- Pass/fail criteria for an environment (spec §3 `ThresholdPolicy`);
in `scripts/slo-check.py` the targets are the `--availability-target`
and `--latency-target` arguments. The window fields come from the spec's
data model; the script receives `--window` but only as an opaque string. -/
structure ThresholdPolicy where
  availabilityTargetPercent : Rat
  latencyTargetMillis : Rat
  windowDuration : Rat
  sampleInterval : Rat
  deriving DecidableEq, Repr

/-- The pass/fail condition of `check_slo` (slo-check.py lines 21-22):
`current_availability >= availability_target and
 current_latency <= latency_target`. -/
def slo_met (s : MetricSample) (p : ThresholdPolicy) : Bool :=
  decide (s.availabilityPercent ≥ p.availabilityTargetPercent) &&
    decide (s.latencyMillis ≤ p.latencyTargetMillis)

/-- The full run of `check_slo environment window availability_target
latency_target` (slo-check.py lines 6-29), with the two values drawn by
`random.uniform` passed in as `avail` and `lat`.  Returns the effect
trace and the returned boolean. -/
def checkSloRun (environment window : String) (avail lat : Rat)
    (p : ThresholdPolicy) : List Effect × Bool :=
  let sample : MetricSample := ⟨avail, lat⟩
  let met := slo_met sample p
  ([ .print ("🎯 Checking SLOs for " ++ environment ++ " environment"),
     .print ("   Window: " ++ window),
     .printNum "   Availability target (%)" p.availabilityTargetPercent,
     .printNum "   Latency target (ms)" p.latencyTargetMillis,
     .sleep 5,
     .sampleMetrics,
     .print "📊 Current metrics:",
     .printNum "   Availability (%)" avail,
     .printNum "   Average latency (ms)" lat,
     .print (if met then "✅ All SLOs are being met"
             else "❌ SLO violation detected!") ],
   met)

/-- The `__main__` block of slo-check.py (lines 31-43): `exit(1)` when
`check_slo` returned false, otherwise the process ends with exit code 0. -/
def sloScriptExit (environment window : String) (avail lat : Rat)
    (p : ThresholdPolicy) : Nat :=
  if (checkSloRun environment window avail lat p).2 then 0 else 1

/-- Recognizes the sampler effect. -/
def isSampleEffect : Effect → Bool
  | .sampleMetrics => true
  | _ => false

/-- Number of sampler calls (metric draws) in an effect trace. -/
def samplerCalls (tr : List Effect) : Nat :=
  (tr.filter isSampleEffect).length

/-- Modelled from the spec: §4.2 GateRunner computes
`sampleCount = ceil(windowDuration / sampleInterval)`, minimum 1.
No such computation exists in src — `check_slo` never uses `--window`
and has no interval at all. -/
def sampleCountSpec (p : ThresholdPolicy) : Int :=
  max 1 ⌈p.windowDuration / p.sampleInterval⌉

/-- Modelled from the spec: §4.2 aggregation policy — all samples must
Pass for the aggregate to Pass.  No aggregation over several samples
exists in src: `check_slo` evaluates a single sample and returns its
verdict. -/
def aggregateVerdict (verdicts : List Bool) : Bool :=
  verdicts.all id

/-- One violated criterion with its observed and target values
(spec §3 `Verdict`). -/
structure Criterion where
  name : String
  observed : Rat
  target : Rat
  deriving DecidableEq, Repr

/-- The structured verdict of the spec's data model (§3). -/
inductive Verdict
  | pass
  | fail (violatedCriteria : List Criterion)
  deriving DecidableEq, Repr

/-- Modelled from the spec: §4.1 — the list of violated criteria, each
with observed vs target value; `check_slo` in src returns a bare bool
and carries no such payload.  A criterion is violated exactly when its
side of the code's pass condition fails: availability strictly below
target, or latency strictly above target. -/
def sloViolations (s : MetricSample) (p : ThresholdPolicy) : List Criterion :=
  (if s.availabilityPercent < p.availabilityTargetPercent then
      [⟨"availability", s.availabilityPercent, p.availabilityTargetPercent⟩]
   else []) ++
  (if p.latencyTargetMillis < s.latencyMillis then
      [⟨"latency", s.latencyMillis, p.latencyTargetMillis⟩]
   else [])

/-- Modelled from the spec: §4.1 `SloEvaluator.evaluate` — Pass when no
criterion is violated, otherwise Fail carrying every violated
criterion. -/
def evaluateVerdict (s : MetricSample) (p : ThresholdPolicy) : Verdict :=
  if sloViolations s p = [] then .pass else .fail (sloViolations s p)

/-- Severity levels of a normalized security finding, ordered
Low < Medium < High < Critical (spec §3 `SecurityFinding`). -/
inductive Severity
  | low
  | medium
  | high
  | critical
  deriving DecidableEq, Repr

/-- Numeric rank realizing the severity order. -/
def Severity.rank : Severity → Nat
  | .low => 0
  | .medium => 1
  | .high => 2
  | .critical => 3

/-- The severity named by a Bandit `issue_severity` string. -/
def sevOfString : String → Option Severity
  | "LOW" => some .low
  | "MEDIUM" => some .medium
  | "HIGH" => some .high
  | "CRITICAL" => some .critical
  | _ => none

/-- Does `needle` occur as a contiguous run inside `hay`? (the Python
`needle in haystack` substring test, on character lists.) -/
def hasSub (needle : List Char) : List Char → Bool
  | [] => needle.isEmpty
  | c :: rest => needle.isPrefixOf (c :: rest) || hasSub needle rest

/-- The per-entry test of the Safety branch
(evaluate-security.py line 16): `'vulnerability' in str(v).lower()`,
applied to the `str(v)` representation of the entry. -/
def mentionsVulnerability (entryRepr : String) : Bool :=
  hasSub "vulnerability".data (entryRepr.data.map Char.toLower)

/-- A parsed `app/safety-report.json`: either a JSON list (each entry
kept as its `str(v)` representation) or some non-list JSON value, which
the `isinstance(safety_data, list)` guard skips. -/
inductive SafetyData
  | list (entries : List String)
  | nonList
  deriving DecidableEq, Repr

/-- One entry of the Bandit report's `results` list; the code reads
only `r.get('issue_severity')` (none when the key is absent). -/
structure BanditResult where
  issue_severity : Option String
  deriving DecidableEq, Repr

/-- A parsed `app/bandit-report.json`: the code only looks at the
optional `results` key (none when `'results' not in bandit_data`). -/
structure BanditData where
  results : Option (List BanditResult)
  deriving DecidableEq, Repr

/-- A scan artifact as the script sees it: `none` = file absent
(`os.path.exists` false), `some none` = present but the guarded block
raised (malformed JSON, swallowed by the bare `except: pass`),
`some (some d)` = parsed value `d`. -/
abbrev Artifact (α : Type) := Option (Option α)

/-- Findings contributed by the Safety branch
(evaluate-security.py lines 11-19): entries of a JSON list whose string
form mentions 'vulnerability'; 0 when the file is absent, malformed, or
not a list. -/
def safetyCount : Artifact SafetyData → Nat
  | none => 0
  | some none => 0
  | some (some .nonList) => 0
  | some (some (.list entries)) => (entries.filter mentionsVulnerability).length

/-- Findings contributed by the Bandit branch
(evaluate-security.py lines 21-29): results whose `issue_severity`
equals `'HIGH'`; 0 when the file is absent, malformed, or has no
`results` key. -/
def banditCount : Artifact BanditData → Nat
  | none => 0
  | some none => 0
  | some (some ⟨none⟩) => 0
  | some (some ⟨some rs⟩) =>
      (rs.filter fun r => r.issue_severity == some "HIGH").length

/-- The `critical_issues` total of `evaluate_security_results`. -/
def criticalIssues (s : Artifact SafetyData) (b : Artifact BanditData) : Nat :=
  safetyCount s + banditCount b

/-- Everything `evaluate_security_results` prints
(evaluate-security.py lines 31-37). -/
def securityOutput (s : Artifact SafetyData) (b : Artifact BanditData) :
    List String :=
  let n := criticalIssues s b
  ("Found " ++ Nat.repr n ++ " critical security issues") ::
    (if n > 0 then ["❌ Security scan failed - critical vulnerabilities found"]
     else ["✅ Security scan passed"])

/-- The exit code of `evaluate_security_results`
(evaluate-security.py lines 33-38): `sys.exit(1)` iff
`critical_issues > 0`, else `sys.exit(0)`. -/
def securityScriptExit (s : Artifact SafetyData) (b : Artifact BanditData) :
    Nat :=
  if criticalIssues s b > 0 then 1 else 0

/-- The hard-coded test list of `run_smoke_tests`
(smoke-tests.py lines 8-11). -/
def smokeTestsList : List (String × String) :=
  [("Health Check", "/health"), ("API Data", "/api/data")]

/-- One iteration of the loop in `run_smoke_tests`
(smoke-tests.py lines 14-18): print, sleep 2, print passed, increment
the counter — no request is ever issued. -/
def smokeStep (acc : List Effect × Nat) (t : String × String) :
    List Effect × Nat :=
  (acc.1 ++ [ .print ("  Testing " ++ t.1 ++ "..."),
              .sleep 2,
              .print ("  ✅ " ++ t.1 ++ " passed") ],
   acc.2 + 1)

/-- The full run of `run_smoke_tests environment`
(smoke-tests.py lines 7-26): effect trace and returned boolean. -/
def run_smoke_tests (environment : String) : List Effect × Bool :=
  let start : List Effect × Nat :=
    ([.print ("🧪 Running smoke tests against " ++ environment ++
        " environment...")], 0)
  let looped := smokeTestsList.foldl smokeStep start
  let passed := looped.2
  let total := smokeTestsList.length
  let tr := looped.1 ++
    [.print ("📊 Smoke test results: " ++ Nat.repr passed ++ "/" ++
        Nat.repr total ++ " tests passed")]
  if passed = total then
    (tr ++ [.print "✅ All smoke tests passed!"], true)
  else
    (tr ++ [.print "❌ Some smoke tests failed!"], false)

/-- The `__main__` block of smoke-tests.py (lines 28-33):
`sys.exit(0 if success else 1)`. -/
def smokeScriptExit (environment : String) : Nat :=
  if (run_smoke_tests environment).2 then 0 else 1

/-- Recognizes an HTTP request effect. -/
def isHttpEffect : Effect → Bool
  | .httpGet _ => true
  | _ => false

/-- Number of HTTP requests in an effect trace. -/
def httpRequests (tr : List Effect) : Nat :=
  (tr.filter isHttpEffect).length

/-- Label of the latency line printed by `run_performance_test`. -/
def latencyLabel : String := "  Average latency (ms)"

/-- Recognizes a printed latency report line. -/
def isLatencyReport : Effect → Bool
  | .printNum label _ => label == latencyLabel
  | _ => false

/-- The full run of `run_performance_test duration environment`
(performance-test.py lines 6-13), with the values drawn by
`random.uniform` in iteration `i` passed in as `latencyDraw i`:
a loop of `duration // 10` iterations, each printing a latency and
sleeping 10s, then an unconditional success line and `return True`. -/
def run_performance_test (duration : Nat) (environment : String)
    (latencyDraw : Nat → Rat) : List Effect × Bool :=
  (Effect.print ("🚀 Running performance test for " ++ Nat.repr duration ++
      "s against " ++ environment) ::
    ((List.range (duration / 10)).flatMap fun i =>
       [Effect.printNum latencyLabel (latencyDraw i), Effect.sleep 10]) ++
    [Effect.print "✅ Performance test completed - within acceptable limits"],
   true)

/-- Number of latency report lines in an effect trace. -/
def latencyReports (tr : List Effect) : Nat :=
  (tr.filter isLatencyReport).length

/-- C1: the SLO evaluation passes iff availability is at or above its
target and latency is at or below its target; both bounds are inclusive,
so a sample exactly at both targets passes. -/
theorem C1_slo_pass_iff_inclusive :
    (∀ (s : MetricSample) (p : ThresholdPolicy),
      slo_met s p = true ↔
        p.availabilityTargetPercent ≤ s.availabilityPercent ∧
          s.latencyMillis ≤ p.latencyTargetMillis) ∧
    (∀ (a l w i : Rat), slo_met ⟨a, l⟩ ⟨a, l, w, i⟩ = true) := by
  constructor
  · intro s p
    simp [slo_met, ge_iff_le]
  · intro a l w i
    simp [slo_met]

/-- C2 counterexample: one static-analysis finding whose severity
normalizes to Critical — which is at or above the High floor, so the
claim demands count 1 and Fail — is not counted by the code (it compares
`issue_severity` against the literal `'HIGH'` only), so the script
reports 0 findings and exits 0. -/
theorem C2_counterexample_critical_not_counted :
    sevOfString "CRITICAL" = some Severity.critical ∧
    Severity.rank Severity.high ≤ Severity.rank Severity.critical ∧
    criticalIssues none (some (some ⟨some [⟨some "CRITICAL"⟩]⟩)) = 0 ∧
    securityScriptExit none (some (some ⟨some [⟨some "CRITICAL"⟩]⟩)) = 0 := by
  refine ⟨rfl, by decide, rfl, rfl⟩

/-- C2 amended: the security gate counts static-analysis results whose
`issue_severity` equals exactly `'HIGH'` plus dependency-scan entries
whose text mentions 'vulnerability' (irrespective of severity), and
fails (exit 1) iff that total is positive; one High static-analysis
finding yields count 1 and Fail. -/
theorem C2_security_gate_hardcoded_counting :
    (∀ rs : List BanditResult,
      banditCount (some (some ⟨some rs⟩)) =
        (rs.filter fun r => r.issue_severity == some "HIGH").length) ∧
    (∀ entries : List String,
      safetyCount (some (some (SafetyData.list entries))) =
        (entries.filter mentionsVulnerability).length) ∧
    (∀ (s : Artifact SafetyData) (b : Artifact BanditData),
      securityScriptExit s b = 1 ↔ 0 < criticalIssues s b) ∧
    (criticalIssues none (some (some ⟨some [⟨some "HIGH"⟩]⟩)) = 1 ∧
     securityScriptExit none (some (some ⟨some [⟨some "HIGH"⟩]⟩)) = 1) := by
  refine ⟨fun rs => rfl, fun entries => rfl, fun s b => ?_, by decide⟩
  unfold securityScriptExit
  split <;> simp_all

/-- C3: the script draws exactly one metric sample on every run,
whereas the spec's sample count for the example policy
(window 30s, interval 10s) is ceil(30/10) = 3. -/
theorem C3_sampler_called_once_regardless_of_window :
    (∀ (environment window : String) (avail lat : Rat) (p : ThresholdPolicy),
      samplerCalls (checkSloRun environment window avail lat p).1 = 1) ∧
    sampleCountSpec ⟨99.9, 200, 30, 10⟩ = 3 := by
  constructor
  · intro e w a l p
    simp [checkSloRun, samplerCalls, isSampleEffect, List.filter]
  · norm_num [sampleCountSpec]

/-- C4: the spec's aggregate verdict passes iff every per-sample verdict
passes; a single failing sample anywhere in the window makes the
aggregate fail. -/
theorem C4_aggregate_pass_iff_all_pass :
    (∀ verdicts : List Bool,
      aggregateVerdict verdicts = true ↔ ∀ v ∈ verdicts, v = true) ∧
    (∀ before after : List Bool,
      aggregateVerdict (before ++ false :: after) = false) := by
  constructor
  · intro vs
    simp [aggregateVerdict]
  · intro b a
    simp [aggregateVerdict]

/-- C5: at the process boundary a Pass verdict maps to exit code 0 and
a Fail verdict to exit code 1, for both the SLO script and the security
script. -/
theorem C5_verdict_to_exit_code :
    (∀ (environment window : String) (avail lat : Rat) (p : ThresholdPolicy),
      (sloScriptExit environment window avail lat p = 0 ↔
        (checkSloRun environment window avail lat p).2 = true) ∧
      (sloScriptExit environment window avail lat p = 1 ↔
        (checkSloRun environment window avail lat p).2 = false)) ∧
    (∀ (s : Artifact SafetyData) (b : Artifact BanditData),
      (securityScriptExit s b = 0 ↔ criticalIssues s b = 0) ∧
      (securityScriptExit s b = 1 ↔ 0 < criticalIssues s b)) := by
  constructor
  · intro e w a l p
    unfold sloScriptExit
    rcases (checkSloRun e w a l p).2 with _ | _ <;> simp
  · intro s b
    unfold securityScriptExit
    split <;> simp_all <;> omega

/-- C6: for a sample violating at least one criterion, the (spec-
modelled) evaluation fails with a non-empty list that contains the
availability criterion iff availability is below target and the latency
criterion iff latency is above target, and nothing else; the code's
boolean condition agrees. -/
theorem C6_fail_enumerates_exactly_violations :
    ∀ (s : MetricSample) (p : ThresholdPolicy),
      (s.availabilityPercent < p.availabilityTargetPercent ∨
        p.latencyTargetMillis < s.latencyMillis) →
      slo_met s p = false ∧
      evaluateVerdict s p = Verdict.fail (sloViolations s p) ∧
      sloViolations s p ≠ [] ∧
      (⟨"availability", s.availabilityPercent, p.availabilityTargetPercent⟩ ∈
          sloViolations s p ↔
        s.availabilityPercent < p.availabilityTargetPercent) ∧
      (⟨"latency", s.latencyMillis, p.latencyTargetMillis⟩ ∈
          sloViolations s p ↔
        p.latencyTargetMillis < s.latencyMillis) ∧
      (∀ c ∈ sloViolations s p,
        c = ⟨"availability", s.availabilityPercent,
              p.availabilityTargetPercent⟩ ∨
        c = ⟨"latency", s.latencyMillis, p.latencyTargetMillis⟩) := by
  intro s p h
  have hmet : slo_met s p = false := by
    simp only [slo_met, Bool.and_eq_false_iff, decide_eq_false_iff_not, not_le,
      ge_iff_le]
    rcases h with h | h
    · exact Or.inl h
    · exact Or.inr h
  have hne : sloViolations s p ≠ [] := by
    unfold sloViolations
    rcases h with h | h <;> simp [h, List.append_eq_nil]
  refine ⟨hmet, ?_, hne, ?_, ?_, ?_⟩
  · unfold evaluateVerdict
    simp [hne]
  · unfold sloViolations
    split <;> split <;> simp_all
  · unfold sloViolations
    split <;> split <;> simp_all
  · intro c hc
    unfold sloViolations at hc
    rcases List.mem_append.mp hc with hm | hm <;>
      [skip; skip] <;> split at hm <;> simp_all

/-- C6 witness: the spec's failing example — sample (99.5%, 150ms)
against policy (99.9%, 200ms, window 30, interval 10) violates only the
availability criterion. -/
theorem C6_witness :
    slo_met ⟨99.5, 150⟩ ⟨99.9, 200, 30, 10⟩ = false ∧
    evaluateVerdict ⟨99.5, 150⟩ ⟨99.9, 200, 30, 10⟩ =
      Verdict.fail (sloViolations ⟨99.5, 150⟩ ⟨99.9, 200, 30, 10⟩) ∧
    sloViolations ⟨99.5, 150⟩ ⟨99.9, 200, 30, 10⟩ ≠ [] ∧
    (⟨"availability", 99.5, 99.9⟩ ∈
        sloViolations ⟨99.5, 150⟩ ⟨99.9, 200, 30, 10⟩ ↔
      (99.5 : Rat) < 99.9) ∧
    (⟨"latency", 150, 200⟩ ∈ sloViolations ⟨99.5, 150⟩ ⟨99.9, 200, 30, 10⟩ ↔
      (200 : Rat) < 150) ∧
    (∀ c ∈ sloViolations ⟨99.5, 150⟩ ⟨99.9, 200, 30, 10⟩,
      c = ⟨"availability", 99.5, 99.9⟩ ∨ c = ⟨"latency", 150, 200⟩) :=
  C6_fail_enumerates_exactly_violations ⟨99.5, 150⟩ ⟨99.9, 200, 30, 10⟩
    (Or.inl (by norm_num))

/-- C7: a present-but-malformed safety artifact is silently swallowed —
the script's entire output and exit code are identical to those for an
absent artifact and for a clean empty artifact, with no warning line of
any kind. -/
theorem C7_malformed_artifact_silently_swallowed :
    securityOutput (some none) none = securityOutput none none ∧
    securityOutput (some none) none =
      securityOutput (some (some (SafetyData.list []))) none ∧
    securityOutput (some none) none =
      ["Found 0 critical security issues", "✅ Security scan passed"] ∧
    securityScriptExit (some none) none = 0 := by
  refine ⟨rfl, rfl, ?_, rfl⟩
  decide

/-- C8: the verdict of a `check_slo` run depends only on the sampled
metrics and the thresholds — it is the pure function `slo_met` of the
sample and policy, unchanged under any environment or window strings. -/
theorem C8_verdict_pure_in_sample_and_policy :
    ∀ (e₁ w₁ e₂ w₂ : String) (avail lat : Rat) (p : ThresholdPolicy),
      (checkSloRun e₁ w₁ avail lat p).2 = (checkSloRun e₂ w₂ avail lat p).2 ∧
      (checkSloRun e₁ w₁ avail lat p).2 = slo_met ⟨avail, lat⟩ p := by
  intro e₁ w₁ e₂ w₂ avail lat p
  exact ⟨rfl, rfl⟩

/-- C9: for every environment, the smoke tests report success, the
process exits 0, and the run performs no HTTP request at all. -/
theorem C9_smoke_tests_always_pass_without_http :
    ∀ environment : String,
      (run_smoke_tests environment).2 = true ∧
      smokeScriptExit environment = 0 ∧
      httpRequests (run_smoke_tests environment).1 = 0 := by
  intro environment
  exact ⟨rfl, rfl, rfl⟩

theorem latencyReports_blocks (latencyDraw : Nat → Rat) (l : List Nat) :
    latencyReports (l.flatMap fun i =>
      [Effect.printNum latencyLabel (latencyDraw i), Effect.sleep 10]) =
      l.length := by
  induction l with
  | nil => rfl
  | cons i rest ih =>
      simp only [List.flatMap_cons, latencyReports, List.filter_append,
        List.length_append] at *
      rw [ih]
      simp [List.filter, isLatencyReport]
      omega

/-- C10: the performance test reports success for every duration and
every drawn latency sequence (the latencies are printed, never
compared), emits exactly `duration / 10` latency lines — zero when
duration < 10 — and still prints the completion line. -/
theorem C10_performance_test_always_succeeds :
    ∀ (duration : Nat) (environment : String) (latencyDraw : Nat → Rat),
      (run_performance_test duration environment latencyDraw).2 = true ∧
      latencyReports (run_performance_test duration environment
        latencyDraw).1 = duration / 10 ∧
      (duration < 10 →
        latencyReports (run_performance_test duration environment
          latencyDraw).1 = 0) ∧
      Effect.print "✅ Performance test completed - within acceptable limits"
        ∈ (run_performance_test duration environment latencyDraw).1 := by
  intro duration environment latencyDraw
  have hcount : latencyReports (run_performance_test duration environment
      latencyDraw).1 = duration / 10 := by
    have h := latencyReports_blocks latencyDraw (List.range (duration / 10))
    unfold latencyReports at h
    unfold run_performance_test latencyReports
    simp only [List.filter_cons, List.filter_append, List.length_append,
      isLatencyReport, List.filter_nil, List.length_nil]
    simp [h]
  refine ⟨rfl, hcount, ?_, ?_⟩
  · intro hlt
    rw [hcount]
    omega
  · unfold run_performance_test
    simp

/-- C10 witness: at duration 5 the loop runs zero times and the test
still reports success. -/
theorem C10_witness :
    (run_performance_test 5 "staging" (fun _ => 150)).2 = true ∧
    latencyReports (run_performance_test 5 "staging" (fun _ => 150)).1 = 0 := by
  have h := C10_performance_test_always_succeeds 5 "staging" (fun _ => 150)
  exact ⟨h.1, h.2.2.1 (by norm_num)⟩

end SreCicd
